import Mathlib

/-!
Shallow embedding of the lyb-mobile-push-notification service routes:
the broadcast pipeline (send route), token registration, token
unregistration, error-report intake and the error-log read path.

Conventions:
* JSON request fields that may be absent are `Option`-typed; JavaScript
  falsiness of a string field (`undefined`, `null`, `""`) is `strFalsy`.
* Database-generated values (record ids, clock readings) are explicit
  parameters (`nextId`, `now`).
* The Expo gateway is a parameter record: its address-format check
  `isExpoPushToken`, its chunk size limit, and the per-call outcome of
  `sendPushNotificationsAsync` (indexed by the position of the batch in
  the dispatch sequence, so one run with arbitrary per-batch outcomes
  can be described).
* HTTP responses are structures mirroring the JSON bodies the routes
  build, plus the status code (200 unless the route sets one).
-/

namespace LybPush

/-- JavaScript string falsiness for an optional JSON field:
`undefined`/`null`/`""` are falsy. -/
def strFalsy : Option String → Bool
  | none => true
  | some s => s.isEmpty

/-- A row of the `PushToken` table (fields the routes touch). -/
structure PushToken where
  id : Nat
  token : String
  platform : String
  deviceInfo : Option String
  isActive : Bool
  lastUsedAt : Nat
deriving DecidableEq

/-- A row of the `NotificationLog` table (fields the send route writes). -/
structure NotificationLog where
  tokenId : Option Nat
  title : String
  body : String
  data : List (String × String)
  status : String
  ticketId : Option String
deriving DecidableEq

/-- A row of the `ErrorLog` table. -/
structure ErrorLog where
  id : Nat
  tokenId : Option String
  platform : Option String
  errorType : String
  message : String
  stackTrace : Option String
  context : Option String
  appVersion : Option String
  createdAt : Nat
deriving DecidableEq

/-- The persistent store the routes read and write. -/
structure Db where
  pushTokens : List PushToken
  notificationLogs : List NotificationLog
  errorLogs : List ErrorLog
deriving DecidableEq

/-- `priority` field of a send request. -/
inductive Priority
  | default
  | normal
  | high
deriving DecidableEq

/-- JSON body of a broadcast (send) request. -/
structure SendNotificationRequest where
  title : Option String
  body : Option String
  data : Option (List (String × String))
  sound : Option String
  badge : Option Nat
  priority : Option Priority
deriving DecidableEq

/-- One outbound Expo push message, as built by the send route.
`toAddr` models the message's `to` field (`to` is reserved in Lean). -/
structure ExpoPushMessage where
  toAddr : String
  sound : String
  title : String
  body : String
  data : List (String × String)
  badge : Option Nat
  priority : Priority
deriving DecidableEq

/-- Opaque delivery ticket returned by the gateway. -/
abbrev ExpoTicket := Nat

/-- Opaque error value thrown by a failed gateway call. -/
abbrev GatewayError := Nat

deriving instance DecidableEq for Except

/-- Outcome of one `sendPushNotificationsAsync` call: either the ticket
list for the batch, or the thrown error. -/
abbrev SendOutcome := Except GatewayError (List ExpoTicket)

/-- The Expo gateway as seen by the routes: the address-format predicate
`Expo.isExpoPushToken`, the chunk size limit used by
`chunkPushNotifications`, and the outcome of the `i`-th batch call of a
run. -/
structure ExpoGateway where
  isExpoPushToken : String → Bool
  chunkLimit : Nat
  send : Nat → List ExpoPushMessage → SendOutcome

/-- Fuel-indexed chunking: split `l` into consecutive pieces of size at
most `B` (the recursion consumes one fuel per emitted chunk). -/
def chunkListAux (B : Nat) : Nat → List α → List (List α)
  | 0, _ => []
  | _, [] => []
  | fuel + 1, a :: l => (a :: l).take B :: chunkListAux B fuel ((a :: l).drop B)

/-- `Expo.chunkPushNotifications` for single-recipient messages: split
the message list into consecutive batches of at most `B` messages,
preserving order. -/
def chunkList (B : Nat) (l : List α) : List (List α) :=
  chunkListAux B l.length l

/-- HTTP response of the send route. Absent JSON fields are `none`. -/
structure BroadcastResponse where
  status : Nat := 200
  success : Option Bool := none
  message : Option String := none
  error : Option String := none
  sent : Option Nat := none
  tickets : Option (List ExpoTicket) := none
  errors : Option (List GatewayError) := none
deriving DecidableEq

/-- Everything observable about one run of the send route: the response,
the batches handed to the gateway in dispatch order, the
`NotificationLog` rows created, the id set of the bulk `lastUsedAt`
update, and the resulting store. -/
structure BroadcastResult where
  response : BroadcastResponse
  gatewayCalls : List (List ExpoPushMessage)
  logsWritten : List NotificationLog
  lastUsedIds : List Nat
  db : Db
deriving DecidableEq

/-- The `for (const chunk of chunks)` dispatch loop: call the gateway on
every chunk in order, appending ticket chunks to the aggregate ticket
list on success and pushing the thrown error on failure. `i` is the
position of the first chunk in the dispatch sequence. -/
def runChunks (send : Nat → List ExpoPushMessage → SendOutcome) :
    List (List ExpoPushMessage) → Nat → List ExpoTicket × List GatewayError
  | [], _ => ([], [])
  | c :: cs, i =>
    let rest := runChunks send cs (i + 1)
    match send i c with
    | .ok ts => (ts ++ rest.1, rest.2)
    | .error e => (rest.1, e :: rest.2)

/-- The active-token snapshot: `prisma.pushToken.findMany({where: {isActive: true}})`. -/
def activeTokens (db : Db) : List PushToken :=
  db.pushTokens.filter (·.isActive)

/-- The filtered send set: active tokens whose token string passes
`Expo.isExpoPushToken`. -/
def validTokens (gw : ExpoGateway) (db : Db) : List PushToken :=
  (activeTokens db).filter (fun t => gw.isExpoPushToken t.token)

/-- One outbound message per token of the filtered send set. -/
def mkMessage (req : SendNotificationRequest) (t : PushToken) : ExpoPushMessage :=
  { toAddr := t.token
    sound := req.sound.getD "default"
    title := req.title.getD ""
    body := req.body.getD ""
    data := req.data.getD []
    badge := req.badge
    priority := req.priority.getD .high }

/-- The message list built by the send route. -/
def buildMessages (gw : ExpoGateway) (req : SendNotificationRequest) (db : Db) :
    List ExpoPushMessage :=
  (validTokens gw db).map (mkMessage req)

/-- The batches handed to the gateway, in partition order. -/
def broadcastChunks (gw : ExpoGateway) (req : SendNotificationRequest) (db : Db) :
    List (List ExpoPushMessage) :=
  chunkList gw.chunkLimit (buildMessages gw req db)

/-- The `NotificationLog` row the send route creates for a token record. -/
def mkLog (req : SendNotificationRequest) (t : PushToken) : NotificationLog :=
  { tokenId := some t.id
    title := req.title.getD ""
    body := req.body.getD ""
    data := req.data.getD []
    status := "sent"
    ticketId := none }

/-- `POST /api/notifications/send`: validate title/body, snapshot active
tokens, short-circuit on an empty audience, filter by address format,
build messages, chunk, dispatch sequentially collecting tickets and
batch errors, write one log row per token of the (unfiltered) snapshot,
bulk-update `lastUsedAt` on the snapshot ids, and answer. -/
def broadcastPOST (gw : ExpoGateway) (req : SendNotificationRequest) (now : Nat)
    (db : Db) : BroadcastResult :=
  if strFalsy req.title || strFalsy req.body then
    { response := { status := 400, error := some "title and body are required" }
      gatewayCalls := []
      logsWritten := []
      lastUsedIds := []
      db := db }
  else
    let tokens := activeTokens db
    if tokens.isEmpty then
      { response :=
          { success := some false
            message := some "No active tokens found"
            sent := some 0 }
        gatewayCalls := []
        logsWritten := []
        lastUsedIds := []
        db := db }
    else
      let messages := buildMessages gw req db
      let chunks := broadcastChunks gw req db
      let sendResults := runChunks gw.send chunks 0
      let tickets := sendResults.1
      let errors := sendResults.2
      let logs := tokens.map (mkLog req)
      let ids := tokens.map (·.id)
      { response :=
          { success := some true
            message := some ("Sent " ++ toString messages.length ++ " notifications")
            sent := some messages.length
            tickets := some tickets
            errors := if errors.length > 0 then some errors else none }
        gatewayCalls := chunks
        logsWritten := logs
        lastUsedIds := ids
        db :=
          { db with
            notificationLogs := db.notificationLogs ++ logs
            pushTokens := db.pushTokens.map fun t =>
              if ids.contains t.id then { t with lastUsedAt := now } else t } }

/-- JSON body of a token-registration request. -/
structure RegisterRequest where
  token : Option String
  platform : Option String
  deviceInfo : Option String
deriving DecidableEq

/-- HTTP response of the register route. -/
structure RegisterResponse where
  status : Nat := 200
  success : Option Bool := none
  message : Option String := none
  error : Option String := none
  tokenId : Option Nat := none
deriving DecidableEq

/-- Response and resulting store of one register call. -/
structure RegisterResult where
  response : RegisterResponse
  db : Db
deriving DecidableEq

/-- The in-place `prisma.pushToken.update` applied on re-registration:
request fields overwrite the columns (an absent request field leaves the
column untouched, as Prisma skips `undefined`), `isActive` is forced to
`true` and `lastUsedAt` refreshed. -/
def updToken (req : RegisterRequest) (now : Nat) (t : PushToken) : PushToken :=
  { t with
    platform := req.platform.getD t.platform
    deviceInfo :=
      match req.deviceInfo with
      | none => t.deviceInfo
      | some d => some d
    isActive := true
    lastUsedAt := now }

/-- The fresh row `prisma.pushToken.create` inserts on first
registration of a token string; `lastUsedAt` takes the schema's
current-timestamp default. -/
def newToken (s p : String) (dev : Option String) (now nextId : Nat) : PushToken :=
  { id := nextId
    token := s
    platform := p
    deviceInfo := dev
    isActive := true
    lastUsedAt := now }

/-- `POST /api/notifications/register-token`: reject token strings that
fail `Expo.isExpoPushToken` (an absent token also fails it); if a record
with this token string exists, update it in place via `updToken` and
answer with the existing record's id; otherwise create a new record
with the database-generated id `nextId`. Creating without a `platform`
would violate the required column and surfaces as the catch-all 500. -/
def registerPOST (gw : ExpoGateway) (req : RegisterRequest) (now nextId : Nat)
    (db : Db) : RegisterResult :=
  match req.token with
  | none =>
    { response := { status := 400, error := some "Invalid Expo push token format" }
      db := db }
  | some s =>
    if !gw.isExpoPushToken s then
      { response := { status := 400, error := some "Invalid Expo push token format" }
        db := db }
    else
      match db.pushTokens.find? (fun t => t.token == s) with
      | some existing =>
        { response :=
            { success := some true
              message := some "Token updated successfully"
              tokenId := some existing.id }
          db :=
            { db with
              pushTokens := db.pushTokens.map fun t =>
                if t.token == s then updToken req now t else t } }
      | none =>
        match req.platform with
        | none =>
          { response := { status := 500, error := some "Failed to register token" }
            db := db }
        | some p =>
          { response :=
              { success := some true
                message := some "Token registered successfully"
                tokenId := some nextId }
            db :=
              { db with
                pushTokens := db.pushTokens ++
                  [newToken s p req.deviceInfo now nextId] } }

/-- JSON body of an unregister request. -/
structure UnregisterRequest where
  expoPushToken : Option String
deriving DecidableEq

/-- HTTP response of the unregister route. -/
structure UnregisterResponse where
  status : Nat := 200
  success : Option Bool := none
  message : Option String := none
  error : Option String := none
  count : Option Nat := none
deriving DecidableEq

/-- Response and resulting store of one unregister call. -/
structure UnregisterResult where
  response : UnregisterResponse
  db : Db
deriving DecidableEq

/-- The unregister route: require a truthy `expoPushToken`, then
`updateMany` setting `isActive := false` on every record with that token
string, answering with the matched-row count (0 matches is still a
success). -/
def unregisterPOST (req : UnregisterRequest) (db : Db) : UnregisterResult :=
  if strFalsy req.expoPushToken then
    { response := { status := 400, error := some "expoPushToken is required" }
      db := db }
  else
    let s := req.expoPushToken.getD ""
    { response :=
        { success := some true
          message := some "Token unregistered successfully"
          count := some (db.pushTokens.filter (fun t => t.token == s)).length }
      db :=
        { db with
          pushTokens := db.pushTokens.map fun t =>
            if t.token == s then { t with isActive := false } else t } }

/-- JSON body of an error-report intake request. -/
structure ErrorReportRequest where
  tokenId : Option String
  platform : Option String
  errorType : Option String
  message : Option String
  stackTrace : Option String
  context : Option String
  appVersion : Option String
deriving DecidableEq

/-- HTTP response of the error-intake route. -/
structure ErrorIntakeResponse where
  status : Nat := 200
  success : Option Bool := none
  error : Option String := none
  id : Option Nat := none
deriving DecidableEq

/-- Response and resulting store of one error-intake call. -/
structure ErrorIntakeResult where
  response : ErrorIntakeResponse
  db : Db
deriving DecidableEq

/-- `x || null` on an optional string field: falsy values collapse to
null. -/
def orNull (o : Option String) : Option String :=
  if strFalsy o then none else o

/-- The `ErrorLog` row built by the intake route. -/
def mkErrorLog (req : ErrorReportRequest) (newId now : Nat) : ErrorLog :=
  { id := newId
    tokenId := orNull req.tokenId
    platform := orNull req.platform
    errorType := req.errorType.getD ""
    message := req.message.getD ""
    stackTrace := orNull req.stackTrace
    context := orNull req.context
    appVersion := orNull req.appVersion
    createdAt := now }

/-- `POST /api/logs/error`: require truthy `errorType` and `message`,
then create one `ErrorLog` row and answer with its id. -/
def errorIntakePOST (req : ErrorReportRequest) (newId now : Nat) (db : Db) :
    ErrorIntakeResult :=
  if strFalsy req.errorType || strFalsy req.message then
    { response := { status := 400, error := some "errorType and message are required" }
      db := db }
  else
    { response := { success := some true, id := some newId }
      db := { db with errorLogs := db.errorLogs ++ [mkErrorLog req newId now] } }

/-- Query parameters of the error-log read path; `limit` is the parsed
numeric parameter (absent means the default of the route applies). -/
structure ErrorLogsQuery where
  limit : Option Nat
  errorType : Option String
  platform : Option String
deriving DecidableEq

/-- The Prisma `where` clause of the read path: each filter applies only
when its query parameter is truthy. -/
def matchesFilters (q : ErrorLogsQuery) (l : ErrorLog) : Bool :=
  (if strFalsy q.errorType then true else l.errorType == q.errorType.getD "") &&
  (if strFalsy q.platform then true else l.platform == some (q.platform.getD ""))

/-- `orderBy createdAt desc` on error logs. -/
def newerFirst (a b : ErrorLog) : Prop :=
  b.createdAt ≤ a.createdAt

instance : DecidableRel newerFirst := fun a b =>
  inferInstanceAs (Decidable (b.createdAt ≤ a.createdAt))

/-- `orderBy _count desc` on the per-type aggregate. -/
def moreFrequentFirst (a b : String × Nat) : Prop :=
  b.2 ≤ a.2

instance : DecidableRel moreFrequentFirst := fun a b =>
  inferInstanceAs (Decidable (b.2 ≤ a.2))

/-- The `groupBy errorType` aggregate with counts, ordered by count
descending, computed over the given rows. -/
def errorTypeStats (logs : List ErrorLog) : List (String × Nat) :=
  List.insertionSort moreFrequentFirst
    ((logs.map (·.errorType)).dedup.map fun t =>
      (t, (logs.filter (fun l => l.errorType == t)).length))

/-- HTTP response of the error-log read path (the happy path always
carries all fields, so none are optional here). -/
structure ErrorLogsResponse where
  status : Nat := 200
  success : Bool
  data : List ErrorLog
  total : Nat
  errorTypes : List (String × Nat)
deriving DecidableEq

/-- `GET /api/logs/error`: `data` is the filtered rows, newest first,
limited to `limit` (default 50); `stats.total` is the filtered count;
`stats.errorTypes` is the per-type aggregate over ALL rows (the
`groupBy` carries no `where` clause). -/
def errorLogsGET (q : ErrorLogsQuery) (db : Db) : ErrorLogsResponse :=
  let limit := q.limit.getD 50
  let filtered := db.errorLogs.filter (matchesFilters q)
  { success := true
    data := (List.insertionSort newerFirst filtered).take limit
    total := filtered.length
    errorTypes := errorTypeStats db.errorLogs }

/-! ### Concrete fixtures for witnesses and counterexamples -/

/-- A gateway accepting every address; every batch call succeeds with
one ticket per message. -/
def gwAllValid : ExpoGateway :=
  { isExpoPushToken := fun _ => true
    chunkLimit := 100
    send := fun _ c => .ok (c.map fun _ => 0) }

/-- A well-formed broadcast request. -/
def reqHello : SendNotificationRequest :=
  { title := some "Hello", body := some "World", data := none, sound := none
    badge := none, priority := none }

/-- A broadcast request with a missing title. -/
def reqNoTitle : SendNotificationRequest :=
  { title := none, body := some "World", data := none, sound := none
    badge := none, priority := none }

/-- An empty store. -/
def dbEmpty : Db :=
  { pushTokens := [], notificationLogs := [], errorLogs := [] }

/-- A store whose only token is inactive. -/
def dbInactive : Db :=
  { pushTokens :=
      [{ id := 1, token := "ExponentPushToken[a]", platform := "ios"
         deviceInfo := none, isActive := false, lastUsedAt := 0 }]
    notificationLogs := [], errorLogs := [] }

/-! ### Claim theorems -/

/-- C3: a broadcast request whose title or body is missing or empty is
answered with a 400 validation error and has no side effect: no batch is
handed to the gateway, no `NotificationLog` row is written, no
`lastUsedAt` bulk update happens, and the store is unchanged. -/
theorem broadcast_invalid_input_no_side_effects
    (gw : ExpoGateway) (req : SendNotificationRequest) (now : Nat) (db : Db)
    (h : (strFalsy req.title || strFalsy req.body) = true) :
    (broadcastPOST gw req now db).response.status = 400 ∧
    (broadcastPOST gw req now db).gatewayCalls = [] ∧
    (broadcastPOST gw req now db).logsWritten = [] ∧
    (broadcastPOST gw req now db).lastUsedIds = [] ∧
    (broadcastPOST gw req now db).db = db := by
  simp [broadcastPOST, h]

/-- Witness for C3 at a request with a missing title. -/
theorem broadcast_invalid_input_no_side_effects_check :
    (strFalsy reqNoTitle.title || strFalsy reqNoTitle.body) = true ∧
    (broadcastPOST gwAllValid reqNoTitle 0 dbEmpty).response.status = 400 ∧
    (broadcastPOST gwAllValid reqNoTitle 0 dbEmpty).db = dbEmpty :=
  ⟨by decide,
   (broadcast_invalid_input_no_side_effects gwAllValid reqNoTitle 0 dbEmpty (by decide)).1,
   (broadcast_invalid_input_no_side_effects gwAllValid reqNoTitle 0 dbEmpty (by decide)).2.2.2.2⟩

/-- C4: a broadcast whose active-token snapshot is empty answers with a
non-error (200) result carrying `success = false` and `sent = 0`, hands
no batch to the gateway, writes no `NotificationLog` row, and leaves the
store unchanged. -/
theorem broadcast_empty_audience
    (gw : ExpoGateway) (req : SendNotificationRequest) (now : Nat) (db : Db)
    (hv : (strFalsy req.title || strFalsy req.body) = false)
    (he : activeTokens db = []) :
    (broadcastPOST gw req now db).response.status = 200 ∧
    (broadcastPOST gw req now db).response.success = some false ∧
    (broadcastPOST gw req now db).response.sent = some 0 ∧
    (broadcastPOST gw req now db).gatewayCalls = [] ∧
    (broadcastPOST gw req now db).logsWritten = [] ∧
    (broadcastPOST gw req now db).db = db := by
  simp [broadcastPOST, hv, he]

/-- Witness for C4 at a store whose only token is inactive. -/
theorem broadcast_empty_audience_check :
    activeTokens dbInactive = [] ∧
    (broadcastPOST gwAllValid reqHello 5 dbInactive).response.success = some false ∧
    (broadcastPOST gwAllValid reqHello 5 dbInactive).response.sent = some 0 ∧
    (broadcastPOST gwAllValid reqHello 5 dbInactive).gatewayCalls = [] :=
  ⟨by decide,
   (broadcast_empty_audience gwAllValid reqHello 5 dbInactive (by decide) (by decide)).2.1,
   (broadcast_empty_audience gwAllValid reqHello 5 dbInactive (by decide) (by decide)).2.2.1,
   (broadcast_empty_audience gwAllValid reqHello 5 dbInactive (by decide) (by decide)).2.2.2.1⟩

/-- C8: an unregister call whose token string matches no stored record
answers `success: true` with `count: 0` and changes no token's state. -/
theorem unregister_unknown_token_noop
    (req : UnregisterRequest) (db : Db) (s : String)
    (hs : req.expoPushToken = some s) (hne : s ≠ "")
    (hmiss : ∀ t ∈ db.pushTokens, t.token ≠ s) :
    (unregisterPOST req db).response.status = 200 ∧
    (unregisterPOST req db).response.success = some true ∧
    (unregisterPOST req db).response.count = some 0 ∧
    (unregisterPOST req db).db = db := by
  have hisEmpty : s.isEmpty = false := by
    rw [← Bool.not_eq_true, String.isEmpty_iff]
    exact hne
  have hfilter : db.pushTokens.filter (fun t => t.token == s) = [] := by
    rw [List.filter_eq_nil_iff]
    intro t ht
    simpa using hmiss t ht
  have hmap :
      db.pushTokens.map
        (fun t => if t.token == s then { t with isActive := false } else t) =
      db.pushTokens :=
    (List.map_congr_left fun t ht => by simp [hmiss t ht]).trans
      (List.map_id db.pushTokens)
  have heq :
      unregisterPOST req db =
        ⟨{ status := 200, success := some true
           message := some "Token unregistered successfully", count := some 0 }, db⟩ := by
    unfold unregisterPOST
    rw [hs]
    simp only [strFalsy, hisEmpty, Bool.false_eq_true, if_false, Option.getD_some,
      hfilter, hmap, List.length_nil]
  rw [heq]
  exact ⟨rfl, rfl, rfl, rfl⟩

/-- Witness for C8 at a store not containing the unregistered token. -/
theorem unregister_unknown_token_noop_check :
    (unregisterPOST { expoPushToken := some "ExponentPushToken[zz]" } dbInactive).response.count
      = some 0 ∧
    (unregisterPOST { expoPushToken := some "ExponentPushToken[zz]" } dbInactive).response.success
      = some true ∧
    (unregisterPOST { expoPushToken := some "ExponentPushToken[zz]" } dbInactive).db
      = dbInactive :=
  ⟨(unregister_unknown_token_noop _ dbInactive "ExponentPushToken[zz]" rfl (by decide)
      (by decide)).2.2.1,
   (unregister_unknown_token_noop _ dbInactive "ExponentPushToken[zz]" rfl (by decide)
      (by decide)).2.1,
   (unregister_unknown_token_noop _ dbInactive "ExponentPushToken[zz]" rfl (by decide)
      (by decide)).2.2.2⟩

/-- An error report whose two required fields are present but where
`errorType` is the empty string. -/
def reqEmptyType : ErrorReportRequest :=
  { tokenId := none, platform := none, errorType := some "", message := some "boom"
    stackTrace := none, context := none, appVersion := none }

/-- C9 counterexample: a report with both `errorType` and `message`
present is rejected with a 400 and no `ErrorLog` row, because the
present `errorType` is the empty string (the route tests truthiness,
not presence). -/
theorem errorIntake_present_but_rejected :
    reqEmptyType.errorType.isSome = true ∧ reqEmptyType.message.isSome = true ∧
    (errorIntakePOST reqEmptyType 1 0 dbEmpty).response.status = 400 ∧
    (errorIntakePOST reqEmptyType 1 0 dbEmpty).db.errorLogs = [] := by
  decide

/-- C9 amended: an error report is accepted (200) and persisted as one
new `ErrorLog` row if and only if `errorType` and `message` are both
present AND non-empty; otherwise the route answers 400 and the store is
unchanged. -/
theorem errorIntake_persisted_iff_truthy
    (req : ErrorReportRequest) (newId now : Nat) (db : Db) :
    ((errorIntakePOST req newId now db).response.status = 200 ∧
        (errorIntakePOST req newId now db).db.errorLogs =
          db.errorLogs ++ [mkErrorLog req newId now] ↔
      strFalsy req.errorType = false ∧ strFalsy req.message = false) ∧
    ((strFalsy req.errorType = true ∨ strFalsy req.message = true) →
      (errorIntakePOST req newId now db).response.status = 400 ∧
      (errorIntakePOST req newId now db).db = db) := by
  by_cases h : (strFalsy req.errorType || strFalsy req.message) = true
  · have h4 :
        errorIntakePOST req newId now db =
          ⟨{ status := 400, error := some "errorType and message are required" }, db⟩ := by
      simp [errorIntakePOST, h]
    rw [h4]
    constructor
    · constructor
      · rintro ⟨hst, -⟩
        simp at hst
      · rintro ⟨he, hm⟩
        simp [he, hm] at h
    · intro _
      exact ⟨rfl, rfl⟩
  · have h' : (strFalsy req.errorType || strFalsy req.message) = false :=
      Bool.of_not_eq_true h
    rcases Bool.or_eq_false_iff.mp h' with ⟨he, hm⟩
    have hok :
        errorIntakePOST req newId now db =
          ⟨{ success := some true, id := some newId },
           { db with errorLogs := db.errorLogs ++ [mkErrorLog req newId now] }⟩ := by
      simp [errorIntakePOST, h']
    rw [hok]
    refine ⟨⟨fun _ => ⟨he, hm⟩, fun _ => ⟨rfl, rfl⟩⟩, ?_⟩
    rintro (habs | habs)
    · rw [he] at habs; cases habs
    · rw [hm] at habs; cases habs

/-- Witness for C9's amended theorem at a well-formed report. -/
theorem errorIntake_persisted_iff_truthy_check :
    (errorIntakePOST
        { tokenId := none, platform := none, errorType := some "crash"
          message := some "boom", stackTrace := none, context := none
          appVersion := none } 3 9 dbEmpty).response.status = 200 ∧
    (errorIntakePOST
        { tokenId := none, platform := none, errorType := some "crash"
          message := some "boom", stackTrace := none, context := none
          appVersion := none } 3 9 dbEmpty).db.errorLogs =
      dbEmpty.errorLogs ++
        [mkErrorLog
          { tokenId := none, platform := none, errorType := some "crash"
            message := some "boom", stackTrace := none, context := none
            appVersion := none } 3 9] :=
  (errorIntake_persisted_iff_truthy
    { tokenId := none, platform := none, errorType := some "crash"
      message := some "boom", stackTrace := none, context := none
      appVersion := none } 3 9 dbEmpty).1.mpr (by decide)

/-! ### Helper lemmas for the registration claims -/

/-- A list of length at most one containing `x` is `[x]`. -/
theorem mem_length_le_one_eq_singleton {α : Type} {l : List α} {x : α}
    (hx : x ∈ l) (hlen : l.length ≤ 1) : l = [x] := by
  cases l with
  | nil => cases hx
  | cons a t =>
    cases t with
    | nil =>
      simp only [List.mem_singleton] at hx
      rw [hx]
    | cons b t' =>
      simp only [List.length_cons] at hlen
      omega

/-- If exactly `[x]` survives a filter, `find?` returns `x`. -/
theorem find?_of_filter_eq_singleton {α : Type} {p : α → Bool} {l : List α} {x : α}
    (h : l.filter p = [x]) : l.find? p = some x := by
  induction l with
  | nil => simp at h
  | cons a t ih =>
    by_cases hpa : p a
    · rw [List.filter_cons_of_pos hpa] at h
      injection h with h1 _
      rw [List.find?_cons_of_pos _ hpa, h1]
    · rw [List.filter_cons_of_neg (by simpa using hpa)] at h
      rw [List.find?_cons_of_neg _ (by simpa using hpa)]
      exact ih h

/-- Filtering by token string commutes with mapping a token-preserving
per-record update over the store. -/
theorem filter_token_map (f : PushToken → PushToken)
    (hf : ∀ t, (f t).token = t.token) (s : String) (l : List PushToken) :
    (l.map f).filter (fun t => t.token == s) =
      (l.filter (fun t => t.token == s)).map f := by
  rw [List.filter_map]
  congr 1
  exact List.filter_congr fun t _ => by simp [Function.comp, hf]

/-- A valid registration leaves exactly one record carrying the
registered token string in the store; that record is active and its id
is the returned `tokenId`. -/
theorem registerPOST_spec (gw : ExpoGateway) (req : RegisterRequest)
    (now nextId : Nat) (db : Db) (s : String)
    (hts : req.token = some s) (hvalid : gw.isExpoPushToken s = true)
    (hp : req.platform.isSome)
    (hU : (db.pushTokens.filter (fun t => t.token == s)).length ≤ 1) :
    ∃ rec : PushToken,
      (registerPOST gw req now nextId db).response.tokenId = some rec.id ∧
      (registerPOST gw req now nextId db).db.pushTokens.filter
        (fun t => t.token == s) = [rec] ∧
      rec.isActive = true ∧ rec.token = s := by
  rcases hfind : db.pushTokens.find? (fun t => t.token == s) with _ | ex
  · -- create branch
    rcases hps : req.platform with _ | p
    · rw [hps] at hp; cases hp
    have hnil : db.pushTokens.filter (fun t => t.token == s) = [] := by
      rw [List.filter_eq_nil_iff]
      exact fun t ht => by simpa using List.find?_eq_none.mp hfind t ht
    refine ⟨newToken s p req.deviceInfo now nextId, ?_, ?_, rfl, rfl⟩
    · simp [registerPOST, hts, hvalid, hfind, hps, newToken]
    · simp [registerPOST, hts, hvalid, hfind, hps, List.filter_append, hnil, newToken]
  · -- update branch
    have hpex' := List.find?_some hfind
    have hpex : (ex.token == s) = true := hpex'
    have hmem : ex ∈ db.pushTokens.filter (fun t => t.token == s) :=
      List.mem_filter.mpr ⟨List.mem_of_find?_eq_some hfind, hpex⟩
    have hone : db.pushTokens.filter (fun t => t.token == s) = [ex] :=
      mem_length_le_one_eq_singleton hmem hU
    have htok : ∀ t : PushToken,
        ((if t.token == s then updToken req now t else t).token) = t.token := by
      intro t
      by_cases h : (t.token == s) = true <;> simp [h, updToken]
    refine ⟨updToken req now ex, ?_, ?_, rfl, by simpa [updToken] using hpex⟩
    · simp [registerPOST, hts, hvalid, hfind, updToken]
    · have hcomm := filter_token_map
        (fun t => if t.token == s then updToken req now t else t) htok s db.pushTokens
      simp only [registerPOST, hts, hvalid, hfind]
      rw [if_neg (by simp)]
      rw [hcomm, hone, List.map_singleton, if_pos hpex]

/-- When a record with the token string is found, registration answers
with that record's id. -/
theorem registerPOST_found_id (gw : ExpoGateway) (req : RegisterRequest)
    (now nextId : Nat) (db : Db) (s : String) (ex : PushToken)
    (hts : req.token = some s) (hvalid : gw.isExpoPushToken s = true)
    (hfind : db.pushTokens.find? (fun t => t.token == s) = some ex) :
    (registerPOST gw req now nextId db).response.tokenId = some ex.id := by
  simp [registerPOST, hts, hvalid, hfind]

/-- When a record with the token string is found, registration rewrites
the store by updating the matching records in place. -/
theorem registerPOST_found_db (gw : ExpoGateway) (req : RegisterRequest)
    (now nextId : Nat) (db : Db) (s : String) (ex : PushToken)
    (hts : req.token = some s) (hvalid : gw.isExpoPushToken s = true)
    (hfind : db.pushTokens.find? (fun t => t.token == s) = some ex) :
    (registerPOST gw req now nextId db).db.pushTokens =
      db.pushTokens.map (fun t => if t.token == s then updToken req now t else t) := by
  simp [registerPOST, hts, hvalid, hfind]

/-- The store after an unregister call: matching records are
deactivated in place. -/
theorem unregisterPOST_db (s : String) (hne : s ≠ "") (db : Db) :
    (unregisterPOST { expoPushToken := some s } db).db.pushTokens =
      db.pushTokens.map
        (fun t => if t.token == s then { t with isActive := false } else t) := by
  have hisEmpty : s.isEmpty = false := by
    rw [← Bool.not_eq_true, String.isEmpty_iff]
    exact hne
  simp [unregisterPOST, strFalsy, hisEmpty]

/-- C7: registering the same token string twice is idempotent with
respect to record identity: the second registration (here after an
intervening unregistration) answers with the same `tokenId` as the
first, leaves exactly one record carrying the token string, and resets
that record's active flag to `true` even though the unregistration had
set it to `false`. -/
theorem register_twice_same_id_reactivates
    (gw : ExpoGateway) (req1 req3 : RegisterRequest) (s : String)
    (now1 now3 id1 id3 : Nat) (db : Db)
    (h1 : req1.token = some s) (h3 : req3.token = some s)
    (hvalid : gw.isExpoPushToken s = true) (hne : s ≠ "")
    (hp1 : req1.platform.isSome = true)
    (hU : (db.pushTokens.filter (fun t => t.token == s)).length ≤ 1) :
    (registerPOST gw req3 now3 id3
        (unregisterPOST { expoPushToken := some s }
          (registerPOST gw req1 now1 id1 db).db).db).response.tokenId =
      (registerPOST gw req1 now1 id1 db).response.tokenId ∧
    ((registerPOST gw req3 now3 id3
        (unregisterPOST { expoPushToken := some s }
          (registerPOST gw req1 now1 id1 db).db).db).db.pushTokens.filter
        (fun t => t.token == s)).length = 1 ∧
    (∀ t ∈ (unregisterPOST { expoPushToken := some s }
        (registerPOST gw req1 now1 id1 db).db).db.pushTokens,
      t.token = s → t.isActive = false) ∧
    (∀ t ∈ (registerPOST gw req3 now3 id3
        (unregisterPOST { expoPushToken := some s }
          (registerPOST gw req1 now1 id1 db).db).db).db.pushTokens,
      t.token = s → t.isActive = true) := by
  obtain ⟨rec1, hid1, hfil1, hact1, htok1⟩ :=
    registerPOST_spec gw req1 now1 id1 db s h1 hvalid hp1 hU
  have hrec1s : (rec1.token == s) = true := by simp [htok1]
  -- the store after the unregistration
  have hdb2 := unregisterPOST_db s hne (registerPOST gw req1 now1 id1 db).db
  have hfil2 :
      (unregisterPOST { expoPushToken := some s }
          (registerPOST gw req1 now1 id1 db).db).db.pushTokens.filter
        (fun t => t.token == s) = [{ rec1 with isActive := false }] := by
    rw [hdb2]
    rw [filter_token_map _
      (fun t => by by_cases h : (t.token == s) = true <;> simp [h]) s]
    rw [hfil1, List.map_singleton, if_pos hrec1s]
  have hfind2 :
      (unregisterPOST { expoPushToken := some s }
          (registerPOST gw req1 now1 id1 db).db).db.pushTokens.find?
        (fun t => t.token == s) = some { rec1 with isActive := false } :=
    find?_of_filter_eq_singleton hfil2
  have hrec2s : (({ rec1 with isActive := false } : PushToken).token == s) = true := by
    simpa using hrec1s
  -- the third call takes the update branch on that record
  have hid3 := registerPOST_found_id gw req3 now3 id3 _ s _ h3 hvalid hfind2
  have hdb3 := registerPOST_found_db gw req3 now3 id3 _ s _ h3 hvalid hfind2
  have hfil3 :
      (registerPOST gw req3 now3 id3
          (unregisterPOST { expoPushToken := some s }
            (registerPOST gw req1 now1 id1 db).db).db).db.pushTokens.filter
        (fun t => t.token == s) =
        [updToken req3 now3 { rec1 with isActive := false }] := by
    rw [hdb3]
    rw [filter_token_map _
      (fun t => by by_cases h : (t.token == s) = true <;> simp [h, updToken]) s]
    rw [hfil2, List.map_singleton, if_pos hrec2s]
  refine ⟨?_, ?_, ?_, ?_⟩
  · rw [hid3, hid1]
  · rw [hfil3, List.length_singleton]
  · intro t ht hts
    rw [hdb2] at ht
    rcases List.mem_map.mp ht with ⟨u, _, rfl⟩
    by_cases h : (u.token == s) = true
    · simp [h]
    · rw [if_neg (by simpa using h)] at hts ⊢
      exact absurd (by simp [hts]) h
  · intro t ht hts
    rw [hdb3] at ht
    rcases List.mem_map.mp ht with ⟨u, _, rfl⟩
    by_cases h : (u.token == s) = true
    · simp [h, updToken]
    · rw [if_neg (by simpa using h)] at hts ⊢
      exact absurd (by simp [hts]) h

/-- Witness for C7: register, unregister, re-register a concrete token
string against an empty store; both registrations answer id 1 and the
single surviving record is active. -/
theorem register_twice_same_id_reactivates_check :
    (registerPOST gwAllValid
        { token := some "ExponentPushToken[w]", platform := none, deviceInfo := none }
        8 2
        (unregisterPOST { expoPushToken := some "ExponentPushToken[w]" }
          (registerPOST gwAllValid
            { token := some "ExponentPushToken[w]", platform := some "ios"
              deviceInfo := none } 4 1 dbEmpty).db).db).response.tokenId =
      (registerPOST gwAllValid
        { token := some "ExponentPushToken[w]", platform := some "ios"
          deviceInfo := none } 4 1 dbEmpty).response.tokenId ∧
    ((registerPOST gwAllValid
        { token := some "ExponentPushToken[w]", platform := none, deviceInfo := none }
        8 2
        (unregisterPOST { expoPushToken := some "ExponentPushToken[w]" }
          (registerPOST gwAllValid
            { token := some "ExponentPushToken[w]", platform := some "ios"
              deviceInfo := none } 4 1 dbEmpty).db).db).db.pushTokens.filter
        (fun t => t.token == "ExponentPushToken[w]")).length = 1 :=
  ⟨(register_twice_same_id_reactivates gwAllValid
      { token := some "ExponentPushToken[w]", platform := some "ios", deviceInfo := none }
      { token := some "ExponentPushToken[w]", platform := none, deviceInfo := none }
      "ExponentPushToken[w]" 4 8 1 2 dbEmpty rfl rfl (by decide) (by decide) rfl
      (by decide)).1,
   (register_twice_same_id_reactivates gwAllValid
      { token := some "ExponentPushToken[w]", platform := some "ios", deviceInfo := none }
      { token := some "ExponentPushToken[w]", platform := none, deviceInfo := none }
      "ExponentPushToken[w]" 4 8 1 2 dbEmpty rfl rfl (by decide) (by decide) rfl
      (by decide)).2.1⟩

/-! ### Helper lemmas for the broadcast claims -/

/-- Number of chunks produced by the fuel-indexed chunking, given
enough fuel: the ceiling of `length / B`. -/
theorem chunkListAux_length {α : Type} (B : Nat) (hB : 0 < B) :
    ∀ (fuel : Nat) (l : List α), l.length ≤ fuel →
      (chunkListAux B fuel l).length = (l.length + B - 1) / B := by
  intro fuel
  induction fuel with
  | zero =>
    intro l hl
    have hnil : l = [] := List.eq_nil_of_length_eq_zero (Nat.le_zero.mp hl)
    subst hnil
    simp [chunkListAux, Nat.div_eq_of_lt (show B - 1 < B by omega)]
  | succ fuel ih =>
    intro l hl
    cases l with
    | nil => simp [chunkListAux, Nat.div_eq_of_lt (show B - 1 < B by omega)]
    | cons a t =>
      have hdroplen : ((a :: t).drop B).length = t.length + 1 - B := by
        simp [List.length_drop]
      have hrec := ih ((a :: t).drop B) (by rw [hdroplen]; simp at hl; omega)
      simp only [chunkListAux, List.length_cons, hrec, hdroplen]
      have h1 : t.length + 1 + B - 1 = (t.length + 1 - 1) + B := by omega
      rw [h1, Nat.add_div_right _ hB]
      by_cases hc : t.length + 1 ≤ B
      · rw [show t.length + 1 - B = 0 by omega]
        rw [Nat.div_eq_of_lt (show 0 + B - 1 < B by omega),
          Nat.div_eq_of_lt (show t.length + 1 - 1 < B by omega)]
      · rw [show t.length + 1 - B + B - 1 = t.length + 1 - 1 by omega]

/-- The chunk count is the ceiling of `length / B`. -/
theorem chunkList_length {α : Type} (B : Nat) (hB : 0 < B) (l : List α) :
    (chunkList B l).length = (l.length + B - 1) / B :=
  chunkListAux_length B hB l.length l (Nat.le_refl _)

/-- Every element of every chunk comes from the chunked list. -/
theorem mem_of_mem_chunkListAux {α : Type} {B : Nat} :
    ∀ (fuel : Nat) (l b : List α), b ∈ chunkListAux B fuel l → ∀ x ∈ b, x ∈ l := by
  intro fuel
  induction fuel with
  | zero =>
    intro l b hb
    simp [chunkListAux] at hb
  | succ fuel ih =>
    intro l b hb x hx
    cases l with
    | nil => simp [chunkListAux] at hb
    | cons a t =>
      simp only [chunkListAux] at hb
      rcases List.mem_cons.mp hb with h | h
      · subst h
        exact List.take_subset B (a :: t) hx
      · exact List.drop_subset B (a :: t) (ih _ b h x hx)

/-- Every element of every chunk comes from the chunked list. -/
theorem mem_of_mem_chunkList {α : Type} {B : Nat} {l b : List α}
    (hb : b ∈ chunkList B l) : ∀ x ∈ b, x ∈ l :=
  mem_of_mem_chunkListAux l.length l b hb

/-- If every batch call succeeds, the dispatch loop collects every
ticket chunk in batch order and records no error. -/
theorem runChunks_all_ok (send : Nat → List ExpoPushMessage → SendOutcome)
    (tk : Nat → List ExpoTicket) :
    ∀ (cs : List (List ExpoPushMessage)) (i0 : Nat),
      (∀ i, i < cs.length → send (i0 + i) (cs.getD i []) = .ok (tk (i0 + i))) →
      runChunks send cs i0 =
        (((List.range cs.length).map fun i => tk (i0 + i)).flatten, []) := by
  intro cs
  induction cs with
  | nil =>
    intro i0 _
    simp [runChunks]
  | cons c cs ih =>
    intro i0 h
    have h0 : send i0 c = .ok (tk i0) := by
      have := h 0 (by simp)
      simpa using this
    have hrest := ih (i0 + 1) (fun i hi => by
      have := h (i + 1) (by simpa using Nat.succ_lt_succ hi)
      rw [show i0 + (i + 1) = i0 + 1 + i by omega] at this
      simpa using this)
    have hmaps : (List.range cs.length).map ((fun i => tk (i0 + i)) ∘ Nat.succ) =
        (List.range cs.length).map (fun i => tk (i0 + 1 + i)) :=
      List.map_congr_left fun i _ => congrArg tk (by omega)
    simp only [runChunks, h0, hrest]
    rw [List.length_cons, List.range_succ_eq_map, List.map_cons, List.map_map,
      List.flatten_cons, hmaps]
    simp

/-- If exactly the `k`-th batch call throws and every other succeeds,
the dispatch loop collects the ticket chunks of the succeeding batches
in batch order and records exactly the one thrown error. -/
theorem runChunks_one_error (send : Nat → List ExpoPushMessage → SendOutcome)
    (tk : Nat → List ExpoTicket) (e : GatewayError) :
    ∀ (cs : List (List ExpoPushMessage)) (i0 k : Nat), k < cs.length →
      send (i0 + k) (cs.getD k []) = .error e →
      (∀ i, i < cs.length → i ≠ k → send (i0 + i) (cs.getD i []) = .ok (tk (i0 + i))) →
      runChunks send cs i0 =
        ((((List.range cs.length).filter fun i => i != k).map fun i => tk (i0 + i)).flatten,
         [e]) := by
  intro cs
  induction cs with
  | nil =>
    intro i0 k hk
    simp at hk
  | cons c cs ih =>
    intro i0 k hk hfail hok
    cases k with
    | zero =>
      have h0 : send i0 c = .error e := by simpa using hfail
      have hrest := runChunks_all_ok send tk cs (i0 + 1) (fun i hi => by
        have := hok (i + 1) (by simpa using Nat.succ_lt_succ hi) (Nat.succ_ne_zero i)
        rw [show i0 + (i + 1) = i0 + 1 + i by omega] at this
        simpa using this)
      have hfilter : (List.range (c :: cs).length).filter (fun i => i != 0) =
          (List.range cs.length).map Nat.succ := by
        rw [List.length_cons, List.range_succ_eq_map, List.filter_cons_of_neg (by simp),
          List.filter_map]
        rw [List.filter_congr (q := fun _ => true) fun i _ => by simp [Function.comp]]
        rw [List.filter_true]
      have hmaps : (List.range cs.length).map ((fun i => tk (i0 + i)) ∘ Nat.succ) =
          (List.range cs.length).map (fun i => tk (i0 + 1 + i)) :=
        List.map_congr_left fun i _ => congrArg tk (by omega)
      simp only [runChunks, h0, hrest]
      rw [hfilter, List.map_map, hmaps]
    | succ k =>
      have hk' : k < cs.length := by simpa using Nat.lt_of_succ_lt_succ hk
      have h0 : send i0 c = .ok (tk i0) := by
        have := hok 0 (by simp) (Nat.succ_ne_zero k).symm
        simpa using this
      have hrest := ih (i0 + 1) k hk'
        (by
          rw [show i0 + 1 + k = i0 + (k + 1) by omega]
          simpa using hfail)
        (fun i hi hne => by
          have := hok (i + 1) (by simpa using Nat.succ_lt_succ hi)
            (fun habs => hne (Nat.succ_injective habs))
          rw [show i0 + (i + 1) = i0 + 1 + i by omega] at this
          simpa using this)
      have hfilter : (List.range (c :: cs).length).filter (fun i => i != k + 1) =
          0 :: ((List.range cs.length).filter fun i => i != k).map Nat.succ := by
        rw [List.length_cons, List.range_succ_eq_map, List.filter_cons_of_pos (by simp),
          List.filter_map]
        rw [List.filter_congr (q := fun i => i != k) fun i _ => by
          simp [Function.comp]]
      have hmaps : ((List.range cs.length).filter fun i => i != k).map
            ((fun i => tk (i0 + i)) ∘ Nat.succ) =
          ((List.range cs.length).filter fun i => i != k).map
            (fun i => tk (i0 + 1 + i)) :=
        List.map_congr_left fun i _ => congrArg tk (by omega)
      simp only [runChunks, h0, hrest]
      rw [hfilter, List.map_cons, List.flatten_cons, List.map_map, hmaps]
      simp

/-- One equation for the send route when validation passes and the
active-token snapshot is non-empty. -/
theorem broadcastPOST_run (gw : ExpoGateway) (req : SendNotificationRequest)
    (now : Nat) (db : Db)
    (hv : (strFalsy req.title || strFalsy req.body) = false)
    (hne : activeTokens db ≠ []) :
    broadcastPOST gw req now db =
      { response :=
          { status := 200
            success := some true
            message :=
              some ("Sent " ++ toString (buildMessages gw req db).length ++
                " notifications")
            sent := some (buildMessages gw req db).length
            tickets := some (runChunks gw.send (broadcastChunks gw req db) 0).1
            errors :=
              if (runChunks gw.send (broadcastChunks gw req db) 0).2.length > 0 then
                some (runChunks gw.send (broadcastChunks gw req db) 0).2
              else none }
        gatewayCalls := broadcastChunks gw req db
        logsWritten := (activeTokens db).map (mkLog req)
        lastUsedIds := (activeTokens db).map (·.id)
        db :=
          { db with
            notificationLogs :=
              db.notificationLogs ++ (activeTokens db).map (mkLog req)
            pushTokens := db.pushTokens.map fun t =>
              if ((activeTokens db).map (·.id)).contains t.id then
                { t with lastUsedAt := now }
              else t } } := by
  have hne' : (activeTokens db).isEmpty = false := by
    rw [← Bool.not_eq_true, List.isEmpty_iff]
    exact hne
  simp only [broadcastPOST, hv, Bool.false_eq_true, if_false, hne']

/-- C5: when every active token passes the address-format check and the
batch size is positive, the gateway receives exactly the partition of
the message list — `⌈N / B⌉` batches in partition order — and exactly
`N` log rows, `N` bulk-updated ids and `sent = N` are produced, with no
assumption on whether any batch call throws. -/
theorem broadcast_batch_count_and_logs (gw : ExpoGateway)
    (req : SendNotificationRequest) (now : Nat) (db : Db)
    (hv : (strFalsy req.title || strFalsy req.body) = false)
    (hB : 0 < gw.chunkLimit)
    (hall : ∀ t ∈ activeTokens db, gw.isExpoPushToken t.token = true) :
    (broadcastPOST gw req now db).gatewayCalls = broadcastChunks gw req db ∧
    (broadcastPOST gw req now db).gatewayCalls.length =
      ((activeTokens db).length + gw.chunkLimit - 1) / gw.chunkLimit ∧
    (broadcastPOST gw req now db).logsWritten.length = (activeTokens db).length ∧
    (broadcastPOST gw req now db).lastUsedIds.length = (activeTokens db).length ∧
    (broadcastPOST gw req now db).response.sent = some (activeTokens db).length := by
  have hvalid : validTokens gw db = activeTokens db := by
    rw [validTokens]
    exact List.filter_eq_self.mpr hall
  have hmlen : (buildMessages gw req db).length = (activeTokens db).length := by
    rw [buildMessages, hvalid, List.length_map]
  have hchlen : (broadcastChunks gw req db).length =
      ((activeTokens db).length + gw.chunkLimit - 1) / gw.chunkLimit := by
    rw [broadcastChunks, chunkList_length _ hB, hmlen]
  by_cases hne : activeTokens db = []
  · have hempty : (activeTokens db).isEmpty = true := by
      rw [hne]
      rfl
    have hch : broadcastChunks gw req db = [] := by
      rw [broadcastChunks, buildMessages, hvalid, hne]
      rfl
    simp only [broadcastPOST, hv, Bool.false_eq_true, if_false, hempty, if_true]
    refine ⟨hch.symm, ?_, ?_, ?_, ?_⟩ <;>
      simp [hne, hch,
        Nat.div_eq_of_lt (show gw.chunkLimit - 1 < gw.chunkLimit by omega)]
  · rw [broadcastPOST_run gw req now db hv hne]
    exact ⟨rfl, hchlen, List.length_map _ _, List.length_map _ _, by rw [hmlen]⟩

/-- 250 active tokens, all passing the (accept-everything) format
check. -/
def db250 : Db :=
  { pushTokens :=
      (List.range 250).map fun i =>
        { id := i, token := "T", platform := "android", deviceInfo := none
          isActive := true, lastUsedAt := 0 }
    notificationLogs := []
    errorLogs := [] }

set_option maxRecDepth 40000 in
/-- Witness for C5 at the concrete 250-token, batch-size-100 scenario:
3 gateway calls with batch sizes 100, 100, 50, `sent = 250`, 250 log
rows and 250 bulk-updated ids. -/
theorem broadcast_batch_count_and_logs_check :
    (broadcastPOST gwAllValid reqHello 0 db250).gatewayCalls.map List.length =
      [100, 100, 50] ∧
    (broadcastPOST gwAllValid reqHello 0 db250).response.sent = some 250 ∧
    (broadcastPOST gwAllValid reqHello 0 db250).logsWritten.length = 250 ∧
    (broadcastPOST gwAllValid reqHello 0 db250).lastUsedIds.length = 250 :=
  ⟨by decide,
   ((broadcast_batch_count_and_logs gwAllValid reqHello 0 db250 (by decide) (by decide)
      (by decide)).2.2.2.2).trans (by decide),
   ((broadcast_batch_count_and_logs gwAllValid reqHello 0 db250 (by decide) (by decide)
      (by decide)).2.2.1).trans (by decide),
   ((broadcast_batch_count_and_logs gwAllValid reqHello 0 db250 (by decide) (by decide)
      (by decide)).2.2.2.1).trans (by decide)⟩

/-- A gateway accepting exactly one token string. -/
def gwPrefix : ExpoGateway :=
  { isExpoPushToken := fun s => s == "ExponentPushToken[ok]"
    chunkLimit := 100
    send := fun _ c => .ok (c.map fun _ => 1) }

/-- A store whose only record is active but carries a malformed token
string. -/
def dbBadToken : Db :=
  { pushTokens :=
      [{ id := 7, token := "junk", platform := "ios", deviceInfo := none
         isActive := true, lastUsedAt := 0 }]
    notificationLogs := []
    errorLogs := [] }

/-- C1 counterexample: the active token "junk" fails the format check
and is excluded from the batches, yet a `NotificationLog` row IS written
for it and its id IS in the bulk last-used update — the log writes and
the `updateMany` iterate over the unfiltered snapshot. -/
theorem broadcast_invalid_token_logged_anyway :
    gwPrefix.isExpoPushToken "junk" = false ∧
    (broadcastPOST gwPrefix reqHello 3 dbBadToken).gatewayCalls = [] ∧
    (broadcastPOST gwPrefix reqHello 3 dbBadToken).logsWritten.map (·.tokenId) =
      [some 7] ∧
    (broadcastPOST gwPrefix reqHello 3 dbBadToken).lastUsedIds = [7] ∧
    (broadcastPOST gwPrefix reqHello 3 dbBadToken).db.notificationLogs.length = 1 := by
  decide

/-- C1 amended: a token failing the address-format check is excluded
from the outbound messages, the batches and the `sent` count, and its
active flag is left unchanged — but a `NotificationLog` row IS written
for it and it IS included in the bulk last-used update, because those
two steps iterate over the unfiltered active snapshot. -/
theorem broadcast_invalid_token_excluded_from_send_only (gw : ExpoGateway)
    (req : SendNotificationRequest) (now : Nat) (db : Db) (t : PushToken)
    (hv : (strFalsy req.title || strFalsy req.body) = false)
    (ht : t ∈ db.pushTokens) (hact : t.isActive = true)
    (hbad : gw.isExpoPushToken t.token = false) :
    (∀ b ∈ (broadcastPOST gw req now db).gatewayCalls, ∀ m ∈ b,
      gw.isExpoPushToken m.toAddr = true ∧ m.toAddr ≠ t.token) ∧
    (broadcastPOST gw req now db).response.sent = some (validTokens gw db).length ∧
    mkLog req t ∈ (broadcastPOST gw req now db).logsWritten ∧
    t.id ∈ (broadcastPOST gw req now db).lastUsedIds ∧
    (broadcastPOST gw req now db).db.pushTokens.map (·.isActive) =
      db.pushTokens.map (·.isActive) := by
  have htact : t ∈ activeTokens db := List.mem_filter.mpr ⟨ht, by simp [hact]⟩
  have hne : activeTokens db ≠ [] := List.ne_nil_of_mem htact
  rw [broadcastPOST_run gw req now db hv hne]
  refine ⟨?_, ?_, ?_, ?_, ?_⟩
  · intro b hb m hm
    have hmmsg : m ∈ buildMessages gw req db :=
      mem_of_mem_chunkList hb m hm
    rcases List.mem_map.mp hmmsg with ⟨u, hu, rfl⟩
    have hu' : gw.isExpoPushToken u.token = true :=
      (List.mem_filter.mp hu).2
    refine ⟨by simpa [mkMessage] using hu', ?_⟩
    show u.token ≠ t.token
    intro habs
    rw [habs, hbad] at hu'
    cases hu'
  · simp [buildMessages]
  · exact List.mem_map_of_mem _ htact
  · exact List.mem_map_of_mem _ htact
  · rw [List.map_map]
    refine List.map_congr_left fun u _ => ?_
    simp only [Function.comp_apply]
    split <;> rfl

/-- Witness for C1's amended theorem at the concrete malformed-token
store. -/
theorem broadcast_invalid_token_excluded_from_send_only_check :
    (broadcastPOST gwPrefix reqHello 3 dbBadToken).response.sent = some 0 ∧
    mkLog reqHello
        { id := 7, token := "junk", platform := "ios", deviceInfo := none
          isActive := true, lastUsedAt := 0 } ∈
      (broadcastPOST gwPrefix reqHello 3 dbBadToken).logsWritten ∧
    7 ∈ (broadcastPOST gwPrefix reqHello 3 dbBadToken).lastUsedIds :=
  ⟨((broadcast_invalid_token_excluded_from_send_only gwPrefix reqHello 3 dbBadToken
      { id := 7, token := "junk", platform := "ios", deviceInfo := none
        isActive := true, lastUsedAt := 0 }
      (by decide) (by decide) rfl (by decide)).2.1).trans (by decide),
   (broadcast_invalid_token_excluded_from_send_only gwPrefix reqHello 3 dbBadToken
      { id := 7, token := "junk", platform := "ios", deviceInfo := none
        isActive := true, lastUsedAt := 0 }
      (by decide) (by decide) rfl (by decide)).2.2.1,
   (broadcast_invalid_token_excluded_from_send_only gwPrefix reqHello 3 dbBadToken
      { id := 7, token := "junk", platform := "ios", deviceInfo := none
        isActive := true, lastUsedAt := 0 }
      (by decide) (by decide) rfl (by decide)).2.2.2.1⟩

/-- A store with one active, well-formed token. -/
def dbOneGood : Db :=
  { pushTokens :=
      [{ id := 1, token := "ExponentPushToken[ok]", platform := "ios"
         deviceInfo := none, isActive := true, lastUsedAt := 0 }]
    notificationLogs := []
    errorLogs := [] }

/-- C6 counterexample: a completed broadcast in which no batch failed
answers with the `errors` field ABSENT (`none`), not present-and-empty
as the claim states. -/
theorem broadcast_no_failure_errors_absent :
    (runChunks gwAllValid.send (broadcastChunks gwAllValid reqHello dbOneGood) 0).2
      = [] ∧
    (broadcastPOST gwAllValid reqHello 0 dbOneGood).response.success = some true ∧
    (broadcastPOST gwAllValid reqHello 0 dbOneGood).response.errors = none := by
  decide

/-- C6 amended: when validation succeeds and the audience is non-empty,
the result carries `success = true` regardless of batch outcomes, the
count of messages attempted and the full aggregate ticket list; the
`errors` field carries the batch-level errors when at least one batch
failed and is ABSENT (undefined), not empty, when none failed. -/
theorem broadcast_result_shape (gw : ExpoGateway) (req : SendNotificationRequest)
    (now : Nat) (db : Db)
    (hv : (strFalsy req.title || strFalsy req.body) = false)
    (hne : activeTokens db ≠ []) :
    (broadcastPOST gw req now db).response.success = some true ∧
    (broadcastPOST gw req now db).response.sent =
      some (buildMessages gw req db).length ∧
    (broadcastPOST gw req now db).response.tickets =
      some (runChunks gw.send (broadcastChunks gw req db) 0).1 ∧
    ((runChunks gw.send (broadcastChunks gw req db) 0).2 = [] →
      (broadcastPOST gw req now db).response.errors = none) ∧
    (∀ e es, (runChunks gw.send (broadcastChunks gw req db) 0).2 = e :: es →
      (broadcastPOST gw req now db).response.errors = some (e :: es)) := by
  rw [broadcastPOST_run gw req now db hv hne]
  refine ⟨rfl, rfl, rfl, ?_, ?_⟩
  · intro h
    simp [h]
  · intro e es h
    simp [h]

/-- Witness for C6's amended theorem at a one-token store with an
all-succeeding gateway. -/
theorem broadcast_result_shape_check :
    (broadcastPOST gwAllValid reqHello 0 dbOneGood).response.success = some true ∧
    (broadcastPOST gwAllValid reqHello 0 dbOneGood).response.sent = some 1 ∧
    (broadcastPOST gwAllValid reqHello 0 dbOneGood).response.errors = none :=
  ⟨(broadcast_result_shape gwAllValid reqHello 0 dbOneGood (by decide) (by decide)).1,
   ((broadcast_result_shape gwAllValid reqHello 0 dbOneGood (by decide)
      (by decide)).2.1).trans (by decide),
   (broadcast_result_shape gwAllValid reqHello 0 dbOneGood (by decide)
      (by decide)).2.2.2.1 (by decide)⟩

/-- C2: when exactly the `k`-th of the dispatched batches throws and
every other batch succeeds, the result's `errors` list is exactly the
one thrown error, `tickets` is exactly the concatenation of the
succeeding batches' ticket chunks in batch order, and a
`NotificationLog` row is still created for every targeted token —
the log row count is the full snapshot size. -/
theorem broadcast_single_batch_failure (gw : ExpoGateway)
    (req : SendNotificationRequest) (now : Nat) (db : Db)
    (k : Nat) (e : GatewayError) (tk : Nat → List ExpoTicket)
    (hv : (strFalsy req.title || strFalsy req.body) = false)
    (hk : k < (broadcastChunks gw req db).length)
    (hfail : gw.send k ((broadcastChunks gw req db).getD k []) = .error e)
    (hok : ∀ i, i < (broadcastChunks gw req db).length → i ≠ k →
      gw.send i ((broadcastChunks gw req db).getD i []) = .ok (tk i)) :
    (broadcastPOST gw req now db).response.errors = some [e] ∧
    (broadcastPOST gw req now db).response.tickets =
      some ((((List.range (broadcastChunks gw req db).length).filter
        fun i => i != k).map tk).flatten) ∧
    (∀ t ∈ validTokens gw db,
      mkLog req t ∈ (broadcastPOST gw req now db).logsWritten) ∧
    (broadcastPOST gw req now db).logsWritten.length = (activeTokens db).length := by
  have hmne : buildMessages gw req db ≠ [] := by
    intro h
    rw [broadcastChunks, h] at hk
    simp [chunkList, chunkListAux] at hk
  have hne : activeTokens db ≠ [] := by
    intro h
    apply hmne
    rw [buildMessages, validTokens, h]
    rfl
  have hrun := runChunks_one_error gw.send tk e (broadcastChunks gw req db) 0 k hk
    (by simpa using hfail)
    (fun i hi hne' => by simpa using hok i hi hne')
  have hmap0 : (((List.range (broadcastChunks gw req db).length).filter
        fun i => i != k).map fun i => tk (0 + i)) =
      (((List.range (broadcastChunks gw req db).length).filter
        fun i => i != k).map tk) :=
    List.map_congr_left fun i _ => by rw [Nat.zero_add]
  rw [hmap0] at hrun
  rw [broadcastPOST_run gw req now db hv hne]
  refine ⟨?_, ?_, ?_, ?_⟩
  · simp [hrun]
  · simp [hrun]
  · intro t htv
    rw [validTokens] at htv
    exact List.mem_map_of_mem _ (List.mem_filter.mp htv).1
  · exact List.length_map _ _

/-- A gateway with batch size 1 whose first batch call throws error 99
and whose later calls succeed with one ticket 5 per message. -/
def gwOneFail : ExpoGateway :=
  { isExpoPushToken := fun _ => true
    chunkLimit := 1
    send := fun i c => if i == 0 then .error 99 else .ok (c.map fun _ => 5) }

/-- A store with two active tokens. -/
def dbTwo : Db :=
  { pushTokens :=
      [{ id := 1, token := "A", platform := "ios", deviceInfo := none
         isActive := true, lastUsedAt := 0 },
       { id := 2, token := "B", platform := "ios", deviceInfo := none
         isActive := true, lastUsedAt := 0 }]
    notificationLogs := []
    errorLogs := [] }

/-- Witness for C2: two one-message batches, the first throws — one
error entry, the second batch's ticket survives, two log rows. -/
theorem broadcast_single_batch_failure_check :
    (broadcastPOST gwOneFail reqHello 0 dbTwo).response.errors = some [99] ∧
    (broadcastPOST gwOneFail reqHello 0 dbTwo).response.tickets = some [5] ∧
    (broadcastPOST gwOneFail reqHello 0 dbTwo).logsWritten.length = 2 :=
  ⟨(broadcast_single_batch_failure gwOneFail reqHello 0 dbTwo 0 99 (fun _ => [5])
      (by decide) (by decide) (by decide) (by decide)).1,
   ((broadcast_single_batch_failure gwOneFail reqHello 0 dbTwo 0 99 (fun _ => [5])
      (by decide) (by decide) (by decide) (by decide)).2.1).trans (by decide),
   ((broadcast_single_batch_failure gwOneFail reqHello 0 dbTwo 0 99 (fun _ => [5])
      (by decide) (by decide) (by decide) (by decide)).2.2.2).trans (by decide)⟩

/-! ### Helper instances and lemmas for the error-log read path -/

instance : IsTotal ErrorLog newerFirst :=
  ⟨fun a b => Nat.le_total b.createdAt a.createdAt⟩

instance : IsTrans ErrorLog newerFirst :=
  ⟨fun _ _ _ hab hbc => Nat.le_trans hbc hab⟩

instance : IsTotal (String × Nat) moreFrequentFirst :=
  ⟨fun a b => Nat.le_total b.2 a.2⟩

instance : IsTrans (String × Nat) moreFrequentFirst :=
  ⟨fun _ _ _ hab hbc => Nat.le_trans hbc hab⟩

/-- Characterization of the per-type aggregate: `(t, c)` appears in it
exactly when `t` occurs among the rows and `c` is `t`'s count over all
the rows. -/
theorem mem_errorTypeStats (logs : List ErrorLog) (t : String) (c : Nat) :
    (t, c) ∈ errorTypeStats logs ↔
      (t ∈ logs.map (·.errorType) ∧
        c = (logs.filter (fun l => l.errorType == t)).length) := by
  rw [errorTypeStats]
  rw [(List.perm_insertionSort moreFrequentFirst _).mem_iff]
  constructor
  · intro hmem
    rcases List.mem_map.mp hmem with ⟨u, hu, heq⟩
    injection heq with h1 h2
    subst h1
    exact ⟨List.mem_dedup.mp hu, h2.symm⟩
  · rintro ⟨htm, rfl⟩
    exact List.mem_map_of_mem _ (List.mem_dedup.mpr htm)

/-- C10: on the error-log read path, `data` and `stats.total` respect
the errorType/platform filters — `data` is at most `limit` records
(default 50), newest first, every record matching the filters, and
`total` counts the filtered rows — while `stats.errorTypes` is the
count-by-type aggregate over ALL rows, identical for every filter
combination. -/
theorem errorLogsGET_filters_and_stats (q q' : ErrorLogsQuery) (db : Db) :
    (errorLogsGET q db).total = (db.errorLogs.filter (matchesFilters q)).length ∧
    (errorLogsGET q db).data.length ≤ q.limit.getD 50 ∧
    (∀ l ∈ (errorLogsGET q db).data, matchesFilters q l = true) ∧
    List.Pairwise newerFirst (errorLogsGET q db).data ∧
    (errorLogsGET q db).errorTypes = (errorLogsGET q' db).errorTypes ∧
    (∀ t c, (t, c) ∈ (errorLogsGET q db).errorTypes ↔
      (t ∈ db.errorLogs.map (·.errorType) ∧
        c = (db.errorLogs.filter (fun l => l.errorType == t)).length)) := by
  have hdata : (errorLogsGET q db).data =
      (List.insertionSort newerFirst
        (db.errorLogs.filter (matchesFilters q))).take (q.limit.getD 50) := rfl
  have hstats : (errorLogsGET q db).errorTypes = errorTypeStats db.errorLogs := rfl
  refine ⟨rfl, ?_, ?_, ?_, rfl, ?_⟩
  · rw [hdata]
    exact List.length_take_le _ _
  · intro l hl
    rw [hdata] at hl
    have h1 : l ∈ List.insertionSort newerFirst
        (db.errorLogs.filter (matchesFilters q)) :=
      List.take_subset _ _ hl
    exact (List.mem_filter.mp ((List.mem_insertionSort newerFirst).mp h1)).2
  · rw [hdata]
    exact List.Pairwise.sublist (List.take_sublist _ _)
      (List.sorted_insertionSort newerFirst _)
  · intro t c
    rw [hstats]
    exact mem_errorTypeStats db.errorLogs t c

/-- A store with three error logs: two of type "crash" (one per
platform) and one "jserror" on ios. -/
def dbLogs : Db :=
  { pushTokens := []
    notificationLogs := []
    errorLogs :=
      [{ id := 1, tokenId := none, platform := some "ios", errorType := "crash"
         message := "m1", stackTrace := none, context := none, appVersion := none
         createdAt := 10 },
       { id := 2, tokenId := none, platform := some "android", errorType := "crash"
         message := "m2", stackTrace := none, context := none, appVersion := none
         createdAt := 20 },
       { id := 3, tokenId := none, platform := some "ios", errorType := "jserror"
         message := "m3", stackTrace := none, context := none, appVersion := none
         createdAt := 30 }] }

/-- The ios-platform filter. -/
def qIos : ErrorLogsQuery :=
  { limit := none, errorType := none, platform := some "ios" }

/-- No filters. -/
def qAll : ErrorLogsQuery :=
  { limit := none, errorType := none, platform := none }

/-- Witness for C10: under the ios filter, `total` is the 2 filtered
rows, while `stats.errorTypes` still counts both "crash" rows —
including the android one the filter excludes. -/
theorem errorLogsGET_filters_and_stats_check :
    (errorLogsGET qIos dbLogs).total = 2 ∧
    ("crash", 2) ∈ (errorLogsGET qIos dbLogs).errorTypes ∧
    matchesFilters qIos
      { id := 3, tokenId := none, platform := some "ios", errorType := "jserror"
        message := "m3", stackTrace := none, context := none, appVersion := none
        createdAt := 30 } = true :=
  ⟨((errorLogsGET_filters_and_stats qIos qAll dbLogs).1).trans (by decide),
   ((errorLogsGET_filters_and_stats qIos qAll dbLogs).2.2.2.2.2 "crash" 2).mpr
     (by decide),
   (errorLogsGET_filters_and_stats qIos qAll dbLogs).2.2.1
     { id := 3, tokenId := none, platform := some "ios", errorType := "jserror"
       message := "m3", stackTrace := none, context := none, appVersion := none
       createdAt := 30 } (by decide)⟩

end LybPush
